import Mathlib

/-!
Verification development for the cursorarena.io client and map-authoring tool.

The first part embeds `src/lua_api.js`: the Lua scripting surface of the map
editor (`api_set_gravity`, `api_set_map_dimensions`, `api_create_entity`,
`api_on_mouse_click`, the library table `cursorArenaLib`, the module-level
accumulator `mapData` and handler slot `onMouseClick`, and `runLuaScript`).

The second part embeds `src/bootstrap.js`: the client-side input buffer
(`inputState`, `updatePosition`, mousedown/mouseup listeners), the multiplayer
`sendInput` sender, the local `gameLoop` consumption, and the websocket
`socket.onmessage` handler.

Lua numbers are modelled as rationals; a script is modelled as the list of
API calls it performs, with an explicit statement standing for a Lua runtime
error raised at that point of execution.
-/

namespace CursorArena

/-- A Lua value as discriminated by `api_create_entity`'s type dispatch
(`lua_isnumber` / `lua_isboolean` / `lua_isstring`, everything else skipped). -/
inductive LuaValue where
  | num (q : ℚ)
  | boolean (b : Bool)
  | str (s : String)
  | table
  | func
  | nilv
deriving DecidableEq

/-- A JS property value stored into `props` by `api_create_entity`. -/
inductive PropValue where
  | num (q : ℚ)
  | boolean (b : Bool)
  | str (s : String)
deriving DecidableEq

/-- One entity record of `mapData.entities`: the `props` object built by
`api_create_entity`, as an ordered key/value list. -/
abbrev EntityRecord := List (String × PropValue)

/-- The map document accumulated in the module-level `mapData` variable.
`mapData` starts as `{}`: every field is absent until first written
(`entities` is only created on the first `create_entity` call). -/
structure MapData where
  gravity : Option (ℚ × ℚ) := none
  dimensions : Option (ℚ × ℚ) := none
  entities : Option (List EntityRecord) := none
deriving DecidableEq

/-- The entity list of a map document (`mapData.entities`, absent = empty). -/
def entityList (m : MapData) : List EntityRecord :=
  m.entities.getD []

/-- `api_set_gravity`: `mapData.gravity = [x, y]`. -/
def api_set_gravity (m : MapData) (x y : ℚ) : MapData :=
  { m with gravity := some (x, y) }

/-- `api_set_map_dimensions`: `mapData.dimensions = [width, height]`. -/
def api_set_map_dimensions (m : MapData) (width height : ℚ) : MapData :=
  { m with dimensions := some (width, height) }

/-- The per-value copy made by `api_create_entity`'s while-loop body: numbers,
booleans and strings are copied into `props`; any other Lua type is skipped
(no `else` branch in the source). -/
def copyProp : LuaValue → Option PropValue
  | .num q => some (.num q)
  | .boolean b => some (.boolean b)
  | .str s => some (.str s)
  | .table => none
  | .func => none
  | .nilv => none

/-- The `props` object built by `api_create_entity` from the Lua table
argument, in traversal order. -/
def extractProps (t : List (String × LuaValue)) : List (String × PropValue) :=
  t.filterMap fun kv => (copyProp kv.2).map fun v => (kv.1, v)

/-- `api_create_entity`: build `props` from the table, create
`mapData.entities` if absent, then `mapData.entities.push(props)`. -/
def api_create_entity (m : MapData) (t : List (String × LuaValue)) : MapData :=
  let props := extractProps t
  let base := match m.entities with
    | none => ([] : List EntityRecord)
    | some es => es
  { m with entities := some (base ++ [props]) }

/-- The module-level mutable state of `lua_api.js`: the `mapData` accumulator
and the single `onMouseClick` handler slot (a Lua registry reference,
modelled as a numeric token). -/
structure LuaApiState where
  mapData : MapData := {}
  onMouseClick : Option Nat := none
deriving DecidableEq

/-- `api_on_mouse_click`: `onMouseClick = luaL_ref(L, LUA_REGISTRYINDEX)` —
the module-level slot is overwritten with the new reference. -/
def api_on_mouse_click (s : LuaApiState) (f : Nat) : LuaApiState :=
  { s with onMouseClick := some f }

/-- The callbacks currently retained by the handler slot, as a list. -/
def registeredClicks (s : LuaApiState) : List Nat :=
  s.onMouseClick.toList

/-- One step of a map script: an API call, or a Lua runtime error raised at
this point of execution. -/
inductive Stmt where
  | setGravity (x y : ℚ)
  | setMapDimensions (w h : ℚ)
  | createEntity (t : List (String × LuaValue))
  | onMouseClickReg (f : Nat)
  | scriptError
deriving DecidableEq

/-- Whether a statement raises a Lua error. -/
def stmtFails : Stmt → Bool
  | .scriptError => true
  | _ => false

/-- Effect of one successful API call on the map document alone. -/
def applyStmtMap (m : MapData) : Stmt → MapData
  | .setGravity x y => api_set_gravity m x y
  | .setMapDimensions w h => api_set_map_dimensions m w h
  | .createEntity t => api_create_entity m t
  | .onMouseClickReg _ => m
  | .scriptError => m

/-- Effect of one successful API call on the full module-level state. -/
def applyStmt (s : LuaApiState) : Stmt → LuaApiState
  | .onMouseClickReg f => api_on_mouse_click s f
  | c => { s with mapData := applyStmtMap s.mapData c }

/-- `luaL_dostring`: run the script's statements in order against the
module-level state; stop at the first Lua error. Returns the `LUA_OK` flag
and the state as left behind (on error the partial mutations persist in the
module-level variables, as they do in the JS source). -/
def execScriptG (s : LuaApiState) : List Stmt → Bool × LuaApiState
  | [] => (true, s)
  | c :: cs =>
    if stmtFails c then (false, s)
    else execScriptG (applyStmt s c) cs

/-- Whether a script runs to completion without a Lua error. -/
def errorFree (script : List Stmt) : Bool :=
  script.all fun c => !stmtFails c

/-- `runLuaScript`: reset `mapData = {}`, execute the script; on error log,
pop and return `null`, otherwise return `mapData`. The pair also carries the
module-level state left behind. -/
def runLuaScript (g : LuaApiState) (script : List Stmt) : Option MapData × LuaApiState :=
  let r := execScriptG { g with mapData := {} } script
  if r.fst then (some r.snd.mapData, r.snd) else (none, r.snd)

/-- The keys of the `cursorArenaLib` table; `runLuaScript` registers the
library under `cursor_arena` and additionally sets each key as a Lua global. -/
def cursorArenaLib : List String :=
  ["set_gravity", "create_entity", "on_mouse_click", "set_map_dimensions"]

/-- The six operations the map-editor documentation (`MAP_EDITOR_API.md`)
presents as the scripting surface. -/
def documentedOps : List String :=
  ["set_gravity", "set_cursor_size", "set_map_dimensions",
   "create_entity", "on_mouse_click", "on_object_collision"]

/-- Whether a Lua table carries a given key. -/
def hasKey (t : List (String × LuaValue)) (k : String) : Bool :=
  t.any fun kv => kv.1 == k

/-- Transparent characterization of the property copy: keep, in order,
exactly the keys whose values are numbers, booleans or strings, and omit
every other key. Proved equal to `extractProps` below. -/
def specCopy : List (String × LuaValue) → List (String × PropValue)
  | [] => []
  | (k, .num q) :: r => (k, .num q) :: specCopy r
  | (k, .boolean b) :: r => (k, .boolean b) :: specCopy r
  | (k, .str s) :: r => (k, .str s) :: specCopy r
  | (_, .table) :: r => specCopy r
  | (_, .func) :: r => specCopy r
  | (_, .nilv) :: r => specCopy r

/-- Interleaved use of the shared module-level `mapData` by concurrent
authoring sessions: `reset` is a session entering `runLuaScript`
(`mapData = {}`), `exec` is one of its API calls mutating the shared
variable, `finish` is a session returning the current value of `mapData`. -/
inductive SessionEv where
  | reset
  | exec (c : Stmt)
  | finish

/-- Run an interleaved trace over the shared `mapData`; returns the final
shared value and the list of documents returned to sessions, in `finish`
order. -/
def runTrace : MapData → List SessionEv → MapData × List MapData
  | m, [] => (m, [])
  | _, .reset :: es => runTrace {} es
  | m, .exec c :: es => runTrace (applyStmtMap m c) es
  | m, .finish :: es =>
    let r := runTrace m es
    (r.fst, m :: r.snd)

end CursorArena

namespace Bootstrap

/-- The client-side input buffer `inputState` of `bootstrap.js`
(`mouse_dx`, `mouse_dy`, `isMouseDown`), shared by the multiplayer client and
the local map-editor simulation. -/
structure InputState where
  mouse_dx : ℚ := 0
  mouse_dy : ℚ := 0
  isMouseDown : Bool := false
deriving DecidableEq

/-- A browser event the buffer reacts to: a `mousemove` with its
`movementX`/`movementY` pixel deltas, or a `mousedown`/`mouseup`. -/
inductive MouseEv where
  | move (movementX movementY : ℚ)
  | buttonDown
  | buttonUp
deriving DecidableEq

/-- Event handlers of `bootstrap.js`: `updatePosition` accumulates
`mouse_dx += e.movementX; mouse_dy -= e.movementY`; the `mousedown`/`mouseup`
listeners overwrite `isMouseDown`. -/
def applyEvent (s : InputState) : MouseEv → InputState
  | .move mx my => { s with mouse_dx := s.mouse_dx + mx, mouse_dy := s.mouse_dy - my }
  | .buttonDown => { s with isMouseDown := true }
  | .buttonUp => { s with isMouseDown := false }

/-- The buffer after a sequence of browser events. -/
def applyEvents (s : InputState) (evs : List MouseEv) : InputState :=
  evs.foldl applyEvent s

/-- The JSON message built by `sendInput`:
`{ mouse_dx, mouse_dy, is_mouse_down }` and nothing else. -/
structure InputMessage where
  mouse_dx : ℚ
  mouse_dy : ℚ
  is_mouse_down : Bool
deriving DecidableEq

/-- `sendInput`: when the socket is open, send
`{ mouse_dx: inputState.mouse_dx / scale, mouse_dy: inputState.mouse_dy / scale,
is_mouse_down: inputState.isMouseDown }` and zero the accumulated deltas;
otherwise do nothing. -/
def sendInput (s : InputState) (scale : ℚ) (socketOpen : Bool) :
    Option InputMessage × InputState :=
  if socketOpen then
    (some { mouse_dx := s.mouse_dx / scale
            mouse_dy := s.mouse_dy / scale
            is_mouse_down := s.isMouseDown },
     { s with mouse_dx := 0, mouse_dy := 0 })
  else (none, s)

/-- The consumption step at the top of `gameLoop`: read
`world_dx = mouse_dx / scale`, `world_dy = mouse_dy / scale`, zero the deltas,
and pass `(world_dx, world_dy, isMouseDown)` to `game.tick`. -/
def gameLoopConsume (s : InputState) (scale : ℚ) :
    (ℚ × ℚ × Bool) × InputState :=
  ((s.mouse_dx / scale, s.mouse_dy / scale, s.isMouseDown),
   { s with mouse_dx := 0, mouse_dy := 0 })

/-- Sum of the `movementX` components of the `mousemove` events in a list. -/
def sumMovementX : List MouseEv → ℚ
  | [] => 0
  | .move mx _ :: r => mx + sumMovementX r
  | _ :: r => sumMovementX r

/-- Sum of the `movementY` components of the `mousemove` events in a list. -/
def sumMovementY : List MouseEv → ℚ
  | [] => 0
  | .move _ my :: r => my + sumMovementY r
  | _ :: r => sumMovementY r

/-- Last-write-wins value of the grab boolean after a list of events,
starting from `b`. -/
def lastMouseDown (b : Bool) : List MouseEv → Bool
  | [] => b
  | .move _ _ :: r => lastMouseDown b r
  | .buttonDown :: r => lastMouseDown true r
  | .buttonUp :: r => lastMouseDown false r

/-- A message parsed out of `event.data`, discriminated by `message.type`. -/
inductive ServerMsg where
  | welcome (id : Int)
  | gameState (payload : Nat)
  | otherType
deriving DecidableEq

/-- Raw data arriving on the websocket: either data that `JSON.parse`
accepts, or an unparseable packet (on which `JSON.parse` throws). -/
inductive RawMsg where
  | wellFormed (m : ServerMsg)
  | malformed
deriving DecidableEq

/-- The multiplayer client's connection-local state: the recorded
`localPlayerId`, the input buffer, and whether the socket is open. -/
structure ClientState where
  localPlayerId : Option Int := none
  input : InputState := {}
  connectionOpen : Bool := true
deriving DecidableEq

/-- `socket.onmessage`: parse `event.data` inside `try`; a `Welcome` records
the player id, a `GameState` only draws; the `catch` branch logs the parse
error and nothing more — the packet is dropped, no state is written and the
socket is not closed. -/
def onmessage (s : ClientState) : RawMsg → ClientState
  | .wellFormed (.welcome i) => { s with localPlayerId := some i }
  | .wellFormed (.gameState _) => s
  | .wellFormed .otherType => s
  | .malformed => s

end Bootstrap

/-!
Helper lemmas.
-/

namespace CursorArena

/-- `applyStmt` acts on the document component exactly as `applyStmtMap`. -/
lemma applyStmt_mapData (g : LuaApiState) (c : Stmt) :
    (applyStmt g c).mapData = applyStmtMap g.mapData c := by
  cases c <;> rfl

/-- The `LUA_OK` flag of an execution is exactly `errorFree`. -/
lemma execScriptG_fst (script : List Stmt) :
    ∀ g : LuaApiState, (execScriptG g script).fst = errorFree script := by
  induction script with
  | nil => intro g; rfl
  | cons c cs ih =>
    intro g
    cases hc : stmtFails c <;> simp [execScriptG, errorFree, hc, ih, List.all_cons]

/-- The final document of an execution depends only on the initial document,
not on the handler slot. -/
lemma execScriptG_mapData_congr (script : List Stmt) :
    ∀ g g' : LuaApiState, g.mapData = g'.mapData →
      (execScriptG g script).snd.mapData = (execScriptG g' script).snd.mapData := by
  induction script with
  | nil => intro g g' h; simpa [execScriptG] using h
  | cons c cs ih =>
    intro g g' h
    cases hc : stmtFails c
    · simp only [execScriptG, hc, Bool.false_eq_true, if_false]
      exact ih _ _ (by rw [applyStmt_mapData, applyStmt_mapData, h])
    · simpa [execScriptG, hc] using h

/-- An error-free execution folds `applyStmtMap` over the script. -/
lemma execScriptG_ok_mapData (script : List Stmt) :
    ∀ g : LuaApiState, errorFree script = true →
      (execScriptG g script).snd.mapData = script.foldl applyStmtMap g.mapData := by
  induction script with
  | nil => intro g _; rfl
  | cons c cs ih =>
    intro g h
    have hc : stmtFails c = false := by
      cases hc : stmtFails c
      · rfl
      · simp [errorFree, List.all_cons, hc] at h
    have hcs : errorFree cs = true := by
      simpa [errorFree, List.all_cons, hc] using h
    simp only [execScriptG, hc, Bool.false_eq_true, if_false, List.foldl_cons]
    rw [ih _ hcs, applyStmt_mapData]

/-- On the failing-free path, `runLuaScript` returns the fold of the script
over the empty document. -/
lemma runLuaScript_fst_ok (g : LuaApiState) (script : List Stmt)
    (h : errorFree script = true) :
    (runLuaScript g script).fst = some (script.foldl applyStmtMap {}) := by
  have h1 := execScriptG_fst script { g with mapData := ({} : MapData) }
  have h2 := execScriptG_ok_mapData script { g with mapData := ({} : MapData) } h
  simp [runLuaScript, h1, h, h2]

/-- The returned document never depends on the pre-existing module state. -/
lemma runLuaScript_fst_congr (g g' : LuaApiState) (script : List Stmt) :
    (runLuaScript g script).fst = (runLuaScript g' script).fst := by
  have h1 := execScriptG_fst script { g with mapData := ({} : MapData) }
  have h1' := execScriptG_fst script { g' with mapData := ({} : MapData) }
  have h2 := execScriptG_mapData_congr script { g with mapData := ({} : MapData) }
    { g' with mapData := ({} : MapData) } rfl
  cases hf : errorFree script <;> simp [runLuaScript, h1, h1', hf, h2]

/-- A run of a session's statements followed by its return, uninterleaved,
collects exactly the fold of its script. -/
lemma runTrace_exec_finish (script : List Stmt) :
    ∀ m : MapData,
      runTrace m (script.map SessionEv.exec ++ [SessionEv.finish]) =
        (script.foldl applyStmtMap m, [script.foldl applyStmtMap m]) := by
  induction script with
  | nil => intro m; rfl
  | cons c cs ih =>
    intro m
    simpa [runTrace, List.map_cons, List.foldl_cons] using ih (applyStmtMap m c)

/-- The copy loop of `api_create_entity` keeps exactly the primitive-valued
keys, in order. -/
lemma extractProps_eq_specCopy (t : List (String × LuaValue)) :
    extractProps t = specCopy t := by
  induction t with
  | nil => rfl
  | cons kv r ih =>
    obtain ⟨k, v⟩ := kv
    cases v <;> simpa [extractProps, specCopy, copyProp, List.filterMap_cons]
      using ih

/-- Appending behaviour of `api_create_entity` on the entity list. -/
lemma entityList_create (m : MapData) (t : List (String × LuaValue)) :
    entityList (api_create_entity m t) = entityList m ++ [extractProps t] := by
  cases hm : m.entities <;> simp [api_create_entity, entityList, hm]

end CursorArena

namespace Bootstrap

/-- Unfolding of `applyEvents` on a first event. -/
lemma applyEvents_cons (s : InputState) (e : MouseEv) (r : List MouseEv) :
    applyEvents s (e :: r) = applyEvents (applyEvent s e) r := rfl

/-- Accumulated x-delta after a sequence of events. -/
lemma applyEvents_mouse_dx (evs : List MouseEv) :
    ∀ s : InputState, (applyEvents s evs).mouse_dx = s.mouse_dx + sumMovementX evs := by
  induction evs with
  | nil => intro s; simp [applyEvents, sumMovementX]
  | cons e r ih =>
    intro s
    cases e <;> rw [applyEvents_cons, ih] <;> simp [applyEvent, sumMovementX, add_assoc]

/-- Accumulated y-delta (screen y is negated) after a sequence of events. -/
lemma applyEvents_mouse_dy (evs : List MouseEv) :
    ∀ s : InputState, (applyEvents s evs).mouse_dy = s.mouse_dy - sumMovementY evs := by
  induction evs with
  | nil => intro s; simp [applyEvents, sumMovementY]
  | cons e r ih =>
    intro s
    cases e <;> rw [applyEvents_cons, ih] <;> simp [applyEvent, sumMovementY, sub_sub]

/-- The grab boolean after a sequence of events is last-write-wins. -/
lemma applyEvents_isMouseDown (evs : List MouseEv) :
    ∀ s : InputState, (applyEvents s evs).isMouseDown = lastMouseDown s.isMouseDown evs := by
  induction evs with
  | nil => intro s; simp [applyEvents, lastMouseDown]
  | cons e r ih =>
    intro s
    cases e <;> rw [applyEvents_cons, ih] <;> simp [applyEvent, lastMouseDown]

end Bootstrap

/-!
Claim theorems.
-/

namespace CursorArena

/-- Claim C1: `runLuaScript` produces no map document when script execution
fails with a script error (it returns `null`, never the partially built
document), and a document is returned exactly when execution completes
successfully. The previously loaded document, a value already returned to
the caller, is unaffected: the reset rebinds the accumulator rather than
mutating the returned object, which the pure embedding renders as
`runLuaScript` being a function of the script alone on its first component. -/
theorem runLuaScript_none_iff_script_fails (g : LuaApiState) (script : List Stmt) :
    (runLuaScript g script).fst = none ↔ errorFree script = false := by
  have h1 := execScriptG_fst script { g with mapData := ({} : MapData) }
  cases hf : errorFree script <;> simp [runLuaScript, h1, hf]

/-- Claim C2 (counterexample): an entity spec of shape `rect` missing all of
`x1`, `y1`, `x2`, `y2` is not rejected — `api_create_entity` appends it to
the entity list anyway. -/
theorem create_entity_missing_fields_still_added :
    entityList (api_create_entity {} [("shape", LuaValue.str "rect")]) =
      [[("shape", PropValue.str "rect")]] := by
  rfl

/-- Claim C2 (amended): `api_create_entity` performs no shape-field
validation: an entity spec missing a required field (here, a `rect` without
`x1`) is appended to the entity list exactly like a complete one, and no
load warning is produced by this layer; later entities continue to load
since the call always appends one record. -/
theorem create_entity_appends_without_validation (m : MapData)
    (t : List (String × LuaValue)) (_hmiss : hasKey t "x1" = false) :
    entityList (api_create_entity m t) = entityList m ++ [extractProps t] :=
  entityList_create m t

/-- Witness for the amended C2 at a concrete spec missing its rect fields. -/
theorem create_entity_appends_without_validation_witness :
    entityList (api_create_entity {} [("shape", LuaValue.str "rect"),
        ("is_static", LuaValue.boolean true)]) =
      entityList ({} : MapData) ++
        [extractProps [("shape", LuaValue.str "rect"),
          ("is_static", LuaValue.boolean true)]] :=
  create_entity_appends_without_validation {}
    [("shape", LuaValue.str "rect"), ("is_static", LuaValue.boolean true)]
    (by decide)

/-- Claim C3 (code bug): the scripting surface registers only four
operations — `set_gravity`, `create_entity`, `on_mouse_click`,
`set_map_dimensions` — while the repository's own `MAP_EDITOR_API.md`
documents six; `set_cursor_size` and `on_object_collision` are absent from
`cursorArenaLib`, so a script calling either fails. -/
theorem cursorArenaLib_missing_documented_ops :
    "set_gravity" ∈ cursorArenaLib ∧ "create_entity" ∈ cursorArenaLib ∧
    "on_mouse_click" ∈ cursorArenaLib ∧ "set_map_dimensions" ∈ cursorArenaLib ∧
    "set_cursor_size" ∉ cursorArenaLib ∧ "on_object_collision" ∉ cursorArenaLib ∧
    "set_cursor_size" ∈ documentedOps ∧ "on_object_collision" ∈ documentedOps := by
  decide

/-- Claim C4 (counterexample): the in-progress document is the process-wide
`mapData` variable, and interleaved sessions interfere: in a trace where two
sessions each reset and create one entity before either returns, both
sessions receive a document with two entities, while the first session's
script run in isolation yields one entity. -/
theorem interleaved_sessions_interfere :
    ((runTrace {} [SessionEv.reset, SessionEv.reset,
        SessionEv.exec (Stmt.createEntity [("shape", LuaValue.str "rect")]),
        SessionEv.exec (Stmt.createEntity [("shape", LuaValue.str "circle")]),
        SessionEv.finish, SessionEv.finish]).snd.map
          fun m => (entityList m).length) = [2, 2] ∧
    ((runLuaScript {} [Stmt.createEntity [("shape", LuaValue.str "rect")]]).fst.map
        fun m => (entityList m).length) = some 1 := by
  constructor <;> rfl

/-- Claim C4 (amended): the build context is module-level shared mutable
state, so isolation holds only for serialized sessions: a session whose
reset, statements and return are not interleaved with another session's
events receives exactly the document of an isolated `runLuaScript` run. -/
theorem serialized_session_matches_isolated_run (script : List Stmt)
    (m0 : MapData) (h : errorFree script = true) :
    (runTrace m0
        (SessionEv.reset :: (script.map SessionEv.exec ++ [SessionEv.finish]))).snd.head? =
      (runLuaScript { mapData := m0 } script).fst := by
  have hL := runTrace_exec_finish script ({} : MapData)
  have hR := runLuaScript_fst_ok { mapData := m0 } script h
  simp [runTrace, hL, hR]

/-- Witness for the amended C4 at a concrete one-entity script. -/
theorem serialized_session_matches_isolated_run_witness :
    (runTrace {}
        (SessionEv.reset ::
          ([Stmt.createEntity [("shape", LuaValue.str "circle")]].map SessionEv.exec ++
            [SessionEv.finish]))).snd.head? =
      (runLuaScript { mapData := {} }
        [Stmt.createEntity [("shape", LuaValue.str "circle")]]).fst :=
  serialized_session_matches_isolated_run
    [Stmt.createEntity [("shape", LuaValue.str "circle")]] {} (by decide)

/-- Claim C5 (counterexample): registering a second `on_mouse_click`
callback does not preserve the first: after registering references 0 and
then 1, only 1 is retained — there is no ordered handler list. -/
theorem second_click_registration_drops_first :
    registeredClicks (api_on_mouse_click (api_on_mouse_click {} 0) 1) = [1] ∧
    (0 : Nat) ∉ registeredClicks (api_on_mouse_click (api_on_mouse_click {} 0) 1) := by
  decide

/-- Claim C5 (amended): `api_on_mouse_click` stores the callback as a single
opaque registry reference in the module-level slot; a later registration
overwrites an earlier one, so only the most recently registered callback is
retained. -/
theorem click_registration_last_write_wins (s : LuaApiState) (f1 f2 : Nat) :
    registeredClicks (api_on_mouse_click (api_on_mouse_click s f1) f2) = [f2] := by
  rfl

/-- Claim C9: every `create_entity` call appends exactly one record to the
entity list (so the list order equals the call order), and the record holds,
in table order, exactly the keys whose values are numbers, booleans or
strings — keys with values of any other type are silently omitted, as
`specCopy` makes explicit. -/
theorem create_entity_appends_one_filtered_record (m : MapData)
    (t : List (String × LuaValue)) :
    entityList (api_create_entity m t) = entityList m ++ [specCopy t] := by
  rw [← extractProps_eq_specCopy]
  exact entityList_create m t

/-- Claim C10: each `runLuaScript` call resets the accumulated document to
empty before executing, so sequentially the returned document depends only
on the script of that call: running any script after any previous run
returns the same document as running it from a fresh state. -/
theorem runLuaScript_sequential_isolation (g : LuaApiState) (s1 s2 : List Stmt) :
    (runLuaScript (runLuaScript g s1).snd s2).fst =
      (runLuaScript ({} : LuaApiState) s2).fst :=
  runLuaScript_fst_congr (runLuaScript g s1).snd ({} : LuaApiState) s2

end CursorArena

namespace Bootstrap

/-- Claim C6: a sent input message carries exactly the fields `mouse_dx`,
`mouse_dy` and `is_mouse_down` (the `InputMessage` record has no others),
where the deltas are the screen-pixel deltas summed since the previous send
— the buffer being zeroed at a send, stated as the hypotheses and re-proved
of the result — with the y component negated, divided by the current render
scale, and `is_mouse_down` is the buffered grab boolean. -/
theorem sendInput_message_content (s0 : InputState) (evs : List MouseEv)
    (scale : ℚ) (hdx : s0.mouse_dx = 0) (hdy : s0.mouse_dy = 0) :
    (sendInput (applyEvents s0 evs) scale true).fst =
      some { mouse_dx := sumMovementX evs / scale
             mouse_dy := -sumMovementY evs / scale
             is_mouse_down := lastMouseDown s0.isMouseDown evs } ∧
    (sendInput (applyEvents s0 evs) scale true).snd.mouse_dx = 0 ∧
    (sendInput (applyEvents s0 evs) scale true).snd.mouse_dy = 0 := by
  simp [sendInput, applyEvents_mouse_dx, applyEvents_mouse_dy,
    applyEvents_isMouseDown, hdx, hdy, sub_eq_add_neg]

/-- Witness for C6 at a concrete event sequence and scale 2. -/
theorem sendInput_message_content_witness :
    (sendInput (applyEvents {} [MouseEv.move 3 4, MouseEv.buttonDown,
        MouseEv.move 1 2]) 2 true).fst =
      some { mouse_dx := sumMovementX [MouseEv.move 3 4, MouseEv.buttonDown,
               MouseEv.move 1 2] / 2
             mouse_dy := -sumMovementY [MouseEv.move 3 4, MouseEv.buttonDown,
               MouseEv.move 1 2] / 2
             is_mouse_down := lastMouseDown (InputState.isMouseDown {})
               [MouseEv.move 3 4, MouseEv.buttonDown, MouseEv.move 1 2] } ∧
    (sendInput (applyEvents {} [MouseEv.move 3 4, MouseEv.buttonDown,
        MouseEv.move 1 2]) 2 true).snd.mouse_dx = 0 ∧
    (sendInput (applyEvents {} [MouseEv.move 3 4, MouseEv.buttonDown,
        MouseEv.move 1 2]) 2 true).snd.mouse_dy = 0 :=
  sendInput_message_content {} [MouseEv.move 3 4, MouseEv.buttonDown,
    MouseEv.move 1 2] 2 rfl rfl

/-- Claim C7: starting from a buffer zeroed by the previous tick, the
buffered deltas equal the sums of the mouse-movement deltas that arrived
since (screen y negated), the buffered grab boolean is the last-write-wins
value of the mousedown/mouseup events, and the `gameLoop` consumption reads
those values once and resets exactly the deltas to zero, leaving the grab
boolean in place. -/
theorem tick_buffer_invariant (s0 : InputState) (evs : List MouseEv)
    (scale : ℚ) (hdx : s0.mouse_dx = 0) (hdy : s0.mouse_dy = 0) :
    (applyEvents s0 evs).mouse_dx = sumMovementX evs ∧
    (applyEvents s0 evs).mouse_dy = -sumMovementY evs ∧
    (applyEvents s0 evs).isMouseDown = lastMouseDown s0.isMouseDown evs ∧
    (gameLoopConsume (applyEvents s0 evs) scale).fst =
      (sumMovementX evs / scale, -sumMovementY evs / scale,
        lastMouseDown s0.isMouseDown evs) ∧
    (gameLoopConsume (applyEvents s0 evs) scale).snd =
      { mouse_dx := 0, mouse_dy := 0,
        isMouseDown := lastMouseDown s0.isMouseDown evs } := by
  refine ⟨?_, ?_, ?_, ?_, ?_⟩ <;>
    simp [gameLoopConsume, applyEvents_mouse_dx, applyEvents_mouse_dy,
      applyEvents_isMouseDown, hdx, hdy, sub_eq_add_neg]

/-- Witness for C7 at a concrete event sequence ending in a mouse-up. -/
theorem tick_buffer_invariant_witness :
    (applyEvents {} [MouseEv.buttonDown, MouseEv.move 5 1, MouseEv.buttonUp,
        MouseEv.move 2 1]).mouse_dx =
      sumMovementX [MouseEv.buttonDown, MouseEv.move 5 1, MouseEv.buttonUp,
        MouseEv.move 2 1] ∧
    (applyEvents {} [MouseEv.buttonDown, MouseEv.move 5 1, MouseEv.buttonUp,
        MouseEv.move 2 1]).mouse_dy =
      -sumMovementY [MouseEv.buttonDown, MouseEv.move 5 1, MouseEv.buttonUp,
        MouseEv.move 2 1] ∧
    (applyEvents {} [MouseEv.buttonDown, MouseEv.move 5 1, MouseEv.buttonUp,
        MouseEv.move 2 1]).isMouseDown =
      lastMouseDown (InputState.isMouseDown {})
        [MouseEv.buttonDown, MouseEv.move 5 1, MouseEv.buttonUp,
          MouseEv.move 2 1] ∧
    (gameLoopConsume (applyEvents {} [MouseEv.buttonDown, MouseEv.move 5 1,
        MouseEv.buttonUp, MouseEv.move 2 1]) 1).fst =
      (sumMovementX [MouseEv.buttonDown, MouseEv.move 5 1, MouseEv.buttonUp,
          MouseEv.move 2 1] / 1,
        -sumMovementY [MouseEv.buttonDown, MouseEv.move 5 1, MouseEv.buttonUp,
          MouseEv.move 2 1] / 1,
        lastMouseDown (InputState.isMouseDown {})
          [MouseEv.buttonDown, MouseEv.move 5 1, MouseEv.buttonUp,
            MouseEv.move 2 1]) ∧
    (gameLoopConsume (applyEvents {} [MouseEv.buttonDown, MouseEv.move 5 1,
        MouseEv.buttonUp, MouseEv.move 2 1]) 1).snd =
      { mouse_dx := 0, mouse_dy := 0,
        isMouseDown := lastMouseDown (InputState.isMouseDown {})
          [MouseEv.buttonDown, MouseEv.move 5 1, MouseEv.buttonUp,
            MouseEv.move 2 1] } :=
  tick_buffer_invariant {} [MouseEv.buttonDown, MouseEv.move 5 1,
    MouseEv.buttonUp, MouseEv.move 2 1] 1 rfl rfl

/-- Claim C8: an unparseable packet is dropped by `socket.onmessage`: the
handler leaves the state unchanged, so the recorded player id and the
accumulated input are retained and the connection stays open. -/
theorem onmessage_malformed_drops_packet (s : ClientState) :
    onmessage s RawMsg.malformed = s ∧
    (onmessage s RawMsg.malformed).localPlayerId = s.localPlayerId ∧
    (onmessage s RawMsg.malformed).input = s.input ∧
    (onmessage s RawMsg.malformed).connectionOpen = s.connectionOpen :=
  ⟨rfl, rfl, rfl, rfl⟩

end Bootstrap
